import Mathlib

/-!
# EFI GUID constant table (`boot/include/efi_guid.h`)

The header defines five object-like macros.  Each expands to a brace
initializer `{ d1, d2, d3, { b0, ..., b7 } }` of integer literals that is used
to initialise a GUID object.  The development below transcribes the five
initializers literally, models how such an initializer is stored in the
32-bit / 16-bit / 16-bit / 8-byte GUID layout, and proves the byte-level facts
about the stored values.
-/

namespace EfiGuid

/-! ## Data model -/

/-- Brace initializer exactly as written in a macro body: three integer
literals followed by a nested list of integer literals.  The literals are
kept as unbounded naturals; nothing is assumed about their size. -/
structure GuidInit where
  data1 : Nat
  data2 : Nat
  data3 : Nat
  data4 : List Nat
deriving DecidableEq, Repr

/-- Modelled from the spec: the GUID struct type itself is not declared in
`efi_guid.h` (the header only holds initializers for it).  Following the data
model it is a 32-bit field, a 16-bit field, a 16-bit field and an ordered
sequence of 8 bytes.  Field values are naturals; the width is enforced by
`store`. -/
structure EFI_GUID where
  Data1 : Nat
  Data2 : Nat
  Data3 : Nat
  Data4 : List Nat
deriving DecidableEq, Repr

/-- A GUID value whose fields fit the 32 / 16 / 16 / 8x8-bit layout. -/
def EFI_GUID.InRange (g : EFI_GUID) : Prop :=
  g.Data1 < 2 ^ 32 ∧ g.Data2 < 2 ^ 16 ∧ g.Data3 < 2 ^ 16 ∧
    g.Data4.length = 8 ∧ ∀ b ∈ g.Data4, b < 2 ^ 8

/-! ## The five macros, transcribed from the header -/

/-- Body of `#define EFI_LOADED_IMAGE_PROTOCOL_GUID`. -/
def EFI_LOADED_IMAGE_PROTOCOL_GUID : GuidInit :=
  { data1 := 0x5B1B31A1, data2 := 0x9562, data3 := 0x11d2,
    data4 := [0x8E, 0x3F, 0x00, 0xA0, 0xC9, 0x69, 0x72, 0x3B] }

/-- Body of `#define EFI_SIMPLE_FILE_SYSTEM_PROTOCOL_GUID`; the first literal
is written with nine hexadecimal digits in the header. -/
def EFI_SIMPLE_FILE_SYSTEM_PROTOCOL_GUID : GuidInit :=
  { data1 := 0x0964E5B22, data2 := 0x6459, data3 := 0x11D2,
    data4 := [0x8E, 0x39, 0x00, 0xA0, 0xC9, 0x69, 0x72, 0x3B] }

/-- Body of `#define EFI_EDID_DISCOVERED_PROTOCOL_GUID`. -/
def EFI_EDID_DISCOVERED_PROTOCOL_GUID : GuidInit :=
  { data1 := 0x1C0C34F6, data2 := 0xD380, data3 := 0x41FA,
    data4 := [0xA0, 0x49, 0x8A, 0xD0, 0x6C, 0x1A, 0x66, 0xAA] }

/-- Body of `#define EFI_GRAPHICS_OUTPUT_PROTOCOL_GUID`. -/
def EFI_GRAPHICS_OUTPUT_PROTOCOL_GUID : GuidInit :=
  { data1 := 0x9042A9DE, data2 := 0x23DC, data3 := 0x4A38,
    data4 := [0x96, 0xFB, 0x7A, 0xDE, 0xD0, 0x80, 0x51, 0x6A] }

/-- Body of `#define EFI_FILE_INFO_ID`. -/
def EFI_FILE_INFO_ID : GuidInit :=
  { data1 := 0x09576E92, data2 := 0x6D3F, data3 := 0x11D2,
    data4 := [0x8E, 0x39, 0x00, 0xA0, 0xC9, 0x69, 0x72, 0x3B] }

/-- The symbolic names defined by the header, in the order of definition. -/
inductive GuidName where
  | LOADED_IMAGE_PROTOCOL
  | SIMPLE_FILE_SYSTEM_PROTOCOL
  | EDID_DISCOVERED_PROTOCOL
  | GRAPHICS_OUTPUT_PROTOCOL
  | FILE_INFO_ID
deriving DecidableEq, Repr

/-- Every symbolic name of the header. -/
def GuidName.all : List GuidName :=
  [.LOADED_IMAGE_PROTOCOL, .SIMPLE_FILE_SYSTEM_PROTOCOL, .EDID_DISCOVERED_PROTOCOL,
   .GRAPHICS_OUTPUT_PROTOCOL, .FILE_INFO_ID]

/-- Macro expansion: the initializer a symbolic name stands for. -/
def expand : GuidName → GuidInit
  | .LOADED_IMAGE_PROTOCOL => EFI_LOADED_IMAGE_PROTOCOL_GUID
  | .SIMPLE_FILE_SYSTEM_PROTOCOL => EFI_SIMPLE_FILE_SYSTEM_PROTOCOL_GUID
  | .EDID_DISCOVERED_PROTOCOL => EFI_EDID_DISCOVERED_PROTOCOL_GUID
  | .GRAPHICS_OUTPUT_PROTOCOL => EFI_GRAPHICS_OUTPUT_PROTOCOL_GUID
  | .FILE_INFO_ID => EFI_FILE_INFO_ID

/-! ## Storing an initializer and laying it out as bytes -/

/-- Initialising a GUID object from a brace initializer.  Each scalar literal
is converted to the unsigned field type, i.e. reduced modulo `2 ^ width`.  The
nested list initialises the 8-element byte array: missing trailing elements
are zero, and a list with more than 8 elements is rejected by the compiler
(`none`). -/
def store (i : GuidInit) : Option EFI_GUID :=
  if i.data4.length ≤ 8 then
    some
      { Data1 := i.data1 % 2 ^ 32
        Data2 := i.data2 % 2 ^ 16
        Data3 := i.data3 % 2 ^ 16
        Data4 := i.data4.map (· % 2 ^ 8) ++ List.replicate (8 - i.data4.length) 0 }
  else none

/-- The `w` little-endian bytes of `v` (least significant byte first); bits
above `8 * w` do not appear. -/
def leBytes : Nat → Nat → List Nat
  | 0, _ => []
  | w + 1, v => v % 256 :: leBytes w (v / 256)

/-- The value of a little-endian byte sequence. -/
def leValue : List Nat → Nat
  | [] => 0
  | b :: bs => b + 256 * leValue bs

/-- Modelled from the spec: the byte sequence of a GUID is its first field
(32-bit) little-endian, then its second and third fields (16-bit each)
little-endian, then its 8 trailing bytes in the given order.  The header has
no serialization routine; this is the layout of the missing struct type. -/
def serialize (g : EFI_GUID) : List Nat :=
  leBytes 4 g.Data1 ++ leBytes 2 g.Data2 ++ leBytes 2 g.Data3 ++ g.Data4

/-- Modelled from the spec: recovering the four fields of a 16-byte value by
splitting at offsets 4, 6 and 8 and reading the first three parts
little-endian.  Any other length is not a GUID. -/
def decode (bs : List Nat) : Option EFI_GUID :=
  if bs.length = 16 then
    some
      { Data1 := leValue (bs.take 4)
        Data2 := leValue ((bs.drop 4).take 2)
        Data3 := leValue ((bs.drop 6).take 2)
        Data4 := bs.drop 8 }
  else none

/-- Byte sequence of the object a symbolic name initialises. -/
def bytesOf (n : GuidName) : Option (List Nat) :=
  (store (expand n)).map serialize

/-- Byte-for-byte comparison of a runtime GUID against the table: the symbolic
names whose constant has exactly the given bytes. -/
def lookup (bs : List Nat) : List GuidName :=
  GuidName.all.filter (fun n => bytesOf n = some bs)

/-- Upper-case hexadecimal digit of a value below 16. -/
def hexDigit (d : Nat) : Char :=
  if d < 10 then Char.ofNat (48 + d) else Char.ofNat (55 + d)

/-- The `k` least significant hexadecimal digits of `v`, most significant
digit first. -/
def hexDigits : Nat → Nat → List Char
  | 0, _ => []
  | k + 1, v => hexDigits k (v / 16) ++ [hexDigit (v % 16)]

/-- Modelled from the spec: the registry notation in which the UEFI
specification publishes a GUID, `XXXXXXXX-XXXX-XXXX-XXXX-XXXXXXXXXXXX`: the
first three fields as 8, 4 and 4 hexadecimal digits, then trailing bytes 0-1
and trailing bytes 2-7, two digits per byte, in order. -/
def registryText (g : EFI_GUID) : List Char :=
  hexDigits 8 g.Data1 ++ ['-'] ++ hexDigits 4 g.Data2 ++ ['-'] ++ hexDigits 4 g.Data3 ++ ['-']
    ++ ((g.Data4.take 2).map (hexDigits 2)).flatten ++ ['-']
    ++ ((g.Data4.drop 2).map (hexDigits 2)).flatten

/-! ## General facts about the layout -/

theorem leBytes_length (w v : Nat) : (leBytes w v).length = w := by
  induction w generalizing v with
  | zero => rfl
  | succ w ih => simp [leBytes, ih]

theorem leValue_leBytes (w v : Nat) : leValue (leBytes w v) = v % 256 ^ w := by
  induction w generalizing v with
  | zero => simp [leBytes, leValue, Nat.mod_one]
  | succ w ih =>
    simp only [leBytes, leValue, ih]
    rw [pow_succ, Nat.mul_comm (256 ^ w) 256, Nat.mod_mul]

theorem serialize_length (g : EFI_GUID) (h : g.Data4.length = 8) :
    (serialize g).length = 16 := by
  simp [serialize, leBytes_length, h]

theorem store_inRange (i : GuidInit) (g : EFI_GUID) (h : store i = some g) : g.InRange := by
  unfold store at h
  split at h
  · rename_i hlen
    cases h
    refine ⟨Nat.mod_lt _ (by norm_num), Nat.mod_lt _ (by norm_num),
      Nat.mod_lt _ (by norm_num), ?_, ?_⟩
    · simp only [List.length_append, List.length_map, List.length_replicate]
      omega
    · intro b hb
      simp only [List.mem_append, List.mem_map, List.mem_replicate] at hb
      rcases hb with ⟨a, _, rfl⟩ | ⟨_, rfl⟩
      · exact Nat.mod_lt _ (by norm_num)
      · norm_num
  · cases h

theorem decode_serialize (g : EFI_GUID) (h : g.InRange) : decode (serialize g) = some g := by
  obtain ⟨h1, h2, h3, h4, _⟩ := h
  have hlen := serialize_length g h4
  unfold decode
  rw [if_pos hlen]
  have e1 : (serialize g).take 4 = leBytes 4 g.Data1 := by
    simp [serialize, leBytes]
  have e2 : ((serialize g).drop 4).take 2 = leBytes 2 g.Data2 := by
    simp [serialize, leBytes]
  have e3 : ((serialize g).drop 6).take 2 = leBytes 2 g.Data3 := by
    simp [serialize, leBytes]
  have e4 : (serialize g).drop 8 = g.Data4 := by
    simp [serialize, leBytes]
  rw [e1, e2, e3, e4, leValue_leBytes, leValue_leBytes, leValue_leBytes]
  have p1 : g.Data1 % 256 ^ 4 = g.Data1 := Nat.mod_eq_of_lt (by norm_num at h1 ⊢; exact h1)
  have p2 : g.Data2 % 256 ^ 2 = g.Data2 := Nat.mod_eq_of_lt (by norm_num at h2 ⊢; exact h2)
  have p3 : g.Data3 % 256 ^ 2 = g.Data3 := Nat.mod_eq_of_lt (by norm_num at h3 ⊢; exact h3)
  rw [p1, p2, p3]

theorem GuidName.mem_all (n : GuidName) : n ∈ GuidName.all := by
  cases n <;> decide

/-- In a list without duplicates at most one entry equals a given value, so
filtering the preimage of a value under a map that is duplicate-free on the
list leaves at most one element. -/
theorem filter_length_le_one {α β : Type} [DecidableEq β] (f : α → β) (c : β) (l : List α)
    (h : (l.map f).Nodup) : (l.filter (fun x => decide (f x = c))).length ≤ 1 := by
  induction l with
  | nil => simp
  | cons a l ih =>
    rw [List.map_cons, List.nodup_cons] at h
    by_cases hc : f a = c
    · have hnone : l.filter (fun x => decide (f x = c)) = [] := by
        rw [List.filter_eq_nil_iff]
        intro x hx hfx
        apply h.1
        rw [hc, ← of_decide_eq_true hfx]
        exact List.mem_map_of_mem f hx
      simp [List.filter, hc, hnone]
    · simpa [List.filter, hc] using ih h.2

/-! ## The constants -/

/-- C1: `EFI_GRAPHICS_OUTPUT_PROTOCOL_GUID`, stored in the GUID layout and
serialized as its first field (32-bit) little-endian, its second and third
fields (16-bit each) little-endian and its 8 trailing bytes in order, is exactly
`DE A9 42 90 DC 23 38 4A 96 FB 7A DE D0 80 51 6A`. -/
theorem graphics_output_protocol_guid_bytes :
    (store EFI_GRAPHICS_OUTPUT_PROTOCOL_GUID).map serialize =
      some [0xDE, 0xA9, 0x42, 0x90, 0xDC, 0x23, 0x38, 0x4A,
            0x96, 0xFB, 0x7A, 0xDE, 0xD0, 0x80, 0x51, 0x6A] := by
  decide

/-- C2: `EFI_LOADED_IMAGE_PROTOCOL_GUID` reads `5B1B31A1-9562-11D2-8E3F-00A0C969723B`
in registry notation and serializes to the 16 bytes
`A1 31 1B 5B 62 95 D2 11 8E 3F 00 A0 C9 69 72 3B`. -/
theorem loaded_image_protocol_guid_bytes :
    (store EFI_LOADED_IMAGE_PROTOCOL_GUID).map registryText =
      some "5B1B31A1-9562-11D2-8E3F-00A0C969723B".toList ∧
    (store EFI_LOADED_IMAGE_PROTOCOL_GUID).map serialize =
      some [0xA1, 0x31, 0x1B, 0x5B, 0x62, 0x95, 0xD2, 0x11,
            0x8E, 0x3F, 0x00, 0xA0, 0xC9, 0x69, 0x72, 0x3B] := by
  decide

/-- C3: `EFI_SIMPLE_FILE_SYSTEM_PROTOCOL_GUID` reads
`964E5B22-6459-11D2-8E39-00A0C969723B` in registry notation and serializes to the
16 bytes `22 5B 4E 96 59 64 D2 11 8E 39 00 A0 C9 69 72 3B`. -/
theorem simple_file_system_protocol_guid_bytes :
    (store EFI_SIMPLE_FILE_SYSTEM_PROTOCOL_GUID).map registryText =
      some "964E5B22-6459-11D2-8E39-00A0C969723B".toList ∧
    (store EFI_SIMPLE_FILE_SYSTEM_PROTOCOL_GUID).map serialize =
      some [0x22, 0x5B, 0x4E, 0x96, 0x59, 0x64, 0xD2, 0x11,
            0x8E, 0x39, 0x00, 0xA0, 0xC9, 0x69, 0x72, 0x3B] := by
  decide

/-- C4: `EFI_EDID_DISCOVERED_PROTOCOL_GUID` reads
`1C0C34F6-D380-41FA-A049-8AD06C1A66AA` in registry notation and serializes to the
16 bytes `F6 34 0C 1C 80 D3 FA 41 A0 49 8A D0 6C 1A 66 AA`. -/
theorem edid_discovered_protocol_guid_bytes :
    (store EFI_EDID_DISCOVERED_PROTOCOL_GUID).map registryText =
      some "1C0C34F6-D380-41FA-A049-8AD06C1A66AA".toList ∧
    (store EFI_EDID_DISCOVERED_PROTOCOL_GUID).map serialize =
      some [0xF6, 0x34, 0x0C, 0x1C, 0x80, 0xD3, 0xFA, 0x41,
            0xA0, 0x49, 0x8A, 0xD0, 0x6C, 0x1A, 0x66, 0xAA] := by
  decide

/-- C5: `EFI_FILE_INFO_ID` reads `09576E92-6D3F-11D2-8E39-00A0C969723B` in
registry notation and serializes to the 16 bytes
`92 6E 57 09 3F 6D D2 11 8E 39 00 A0 C9 69 72 3B`. -/
theorem file_info_id_bytes :
    (store EFI_FILE_INFO_ID).map registryText =
      some "09576E92-6D3F-11D2-8E39-00A0C969723B".toList ∧
    (store EFI_FILE_INFO_ID).map serialize =
      some [0x92, 0x6E, 0x57, 0x09, 0x3F, 0x6D, 0xD2, 0x11,
            0x8E, 0x39, 0x00, 0xA0, 0xC9, 0x69, 0x72, 0x3B] := by
  decide

/-- C6: every constant of the header is a well-formed 128-bit GUID.  Its first
literal is below `2 ^ 32` (the nine-digit literal `0x0964E5B22` is the 32-bit
value `0x964E5B22`), its second and third literals are below `2 ^ 16`, it has
exactly 8 trailing byte literals, each below `2 ^ 8`; hence storing it keeps
every literal unchanged and its serialization is exactly 16 bytes long. -/
theorem guid_constants_well_formed :
    EFI_SIMPLE_FILE_SYSTEM_PROTOCOL_GUID.data1 = 0x964E5B22 ∧
    ∀ n : GuidName,
      (expand n).data1 < 2 ^ 32 ∧ (expand n).data2 < 2 ^ 16 ∧ (expand n).data3 < 2 ^ 16 ∧
      (expand n).data4.length = 8 ∧ (expand n).data4.all (fun b => decide (b < 2 ^ 8)) = true ∧
      store (expand n) =
        some ⟨(expand n).data1, (expand n).data2, (expand n).data3, (expand n).data4⟩ ∧
      (bytesOf n).map List.length = some 16 := by
  refine ⟨by decide, ?_⟩
  intro n
  cases n <;> decide

/-- C7: every constant of the header is internally consistent.  Its stored
fields are the literals of the header; concatenating the 32-bit field, the two
16-bit fields (each little-endian) and the 8 trailing bytes gives a 16-byte
value, and splitting that value at offsets 4, 6 and 8 and reading the first
three parts little-endian recovers the same four fields. -/
theorem guid_constants_roundtrip (n : GuidName) :
    ∃ g : EFI_GUID,
      store (expand n) = some g ∧
      g = ⟨(expand n).data1, (expand n).data2, (expand n).data3, (expand n).data4⟩ ∧
      (serialize g).length = 16 ∧
      decode (serialize g) = some g := by
  have hs : ∃ g, store (expand n) = some g := by
    cases n <;> exact ⟨_, rfl⟩
  obtain ⟨g, hg⟩ := hs
  have hr := store_inRange _ g hg
  refine ⟨g, hg, ?_, serialize_length g hr.2.2.2.1, decode_serialize g hr⟩
  have hlit : store (expand n) =
      some ⟨(expand n).data1, (expand n).data2, (expand n).data3, (expand n).data4⟩ := by
    cases n <;> decide
  rw [hlit] at hg
  exact (Option.some.inj hg).symm

/-- C8: the five constants are pairwise distinct as 16-byte values, so a
byte-for-byte comparison of any byte sequence against the table matches at most
one symbolic name.  In particular `EFI_SIMPLE_FILE_SYSTEM_PROTOCOL_GUID` and
`EFI_FILE_INFO_ID` have the same third field and the same 8 trailing bytes but
different first fields and different second fields. -/
theorem guid_constants_pairwise_distinct :
    (GuidName.all.map bytesOf).Nodup ∧
    (∀ n : GuidName, n ∈ GuidName.all ∧ ((bytesOf n).map List.length) = some 16) ∧
    (∀ bs : List Nat, (lookup bs).length ≤ 1) ∧
    (∀ n : GuidName, (bytesOf n).map lookup = some [n]) ∧
    ∃ s f : EFI_GUID,
      store EFI_SIMPLE_FILE_SYSTEM_PROTOCOL_GUID = some s ∧ store EFI_FILE_INFO_ID = some f ∧
      s.Data3 = f.Data3 ∧ s.Data4 = f.Data4 ∧ s.Data1 ≠ f.Data1 ∧ s.Data2 ≠ f.Data2 := by
  have hnd : (GuidName.all.map bytesOf).Nodup := by decide
  refine ⟨hnd, ?_, ?_, ?_, ?_⟩
  · intro n
    exact ⟨GuidName.mem_all n, by cases n <;> decide⟩
  · intro bs
    exact filter_length_le_one bytesOf (some bs) GuidName.all hnd
  · intro n
    cases n <;> decide
  · exact ⟨_, _, rfl, rfl, by decide, by decide, by decide, by decide⟩

end EfiGuid
